import Mathlib

/-!
Verification of `facenet_sandberg/utils.py` (face-image preprocessing
primitives): a shallow embedding of the bounding-box, shape-repair,
normalization and embedding-distance functions, with theorems settling the
spec's claims about them.

Conventions of the embedding:
* Python `int` is `ℤ`; Python `float` is `ℚ` where only ring operations and
  comparisons occur, and `ℝ` where `sqrt` / `arccos` are involved.
* `int(q)` (Python truncation toward zero) is `pyInt`.
* A function that can `raise` is `Except String _`; a function that can fall
  through without returning is `Option _`.
* An image, where pixel data matters, is a nested list; where only its shape
  matters (the `crop` box computation), it is passed as its height and width.
-/

namespace FacenetUtils

/-- Python `int(q)`: truncation toward zero (floor for nonnegative values,
ceiling for negative ones). -/
def pyInt (q : ℚ) : ℤ :=
  if 0 ≤ q then ⌊q⌋ else ⌈q⌉

/-- `fix_mtcnn_bb(max_y, max_x, x1, y1, dx, dy)` from `utils.py`:
computes `x2 = x1 + dx`, `y2 = y1 + dy`, then clamps each of the four
coordinates independently with `max(min(v, max_axis), 0)` and returns
`[x1, y1, x2, y2]`. -/
def fix_mtcnn_bb (max_y max_x x1 y1 dx dy : ℤ) : List ℤ :=
  let x2 := x1 + dx
  let y2 := y1 + dy
  let x1' := max (min x1 max_x) 0
  let x2' := max (min x2 max_x) 0
  let y1' := max (min y1 max_y) 0
  let y2' := max (min y2 max_y) 0
  [x1', y1', x2', y2']

/-- The box computed by `crop` once the margin check has passed:
`margin_height = (y1 - y0) * margin / 2`, `margin_width = (x1 - x0) * margin / 2`,
then `x0 := int(max(x0 - margin_width, 0))`, `y0 := int(max(y0 - margin_height, 0))`,
`x1 := int(min(x1 + margin_width, img_width))`,
`y1 := int(min(y1 + margin_height, img_height))`. -/
def cropBox (imgHeight imgWidth : ℤ) (bb : ℤ × ℤ × ℤ × ℤ) (margin : ℚ) :
    ℤ × ℤ × ℤ × ℤ :=
  let x0 := bb.1
  let y0 := bb.2.1
  let x1 := bb.2.2.1
  let y1 := bb.2.2.2
  let margin_height : ℚ := ((y1 : ℚ) - (y0 : ℚ)) * margin / 2
  let margin_width : ℚ := ((x1 : ℚ) - (x0 : ℚ)) * margin / 2
  let x0' := pyInt (max ((x0 : ℚ) - margin_width) 0)
  let y0' := pyInt (max ((y0 : ℚ) - margin_height) 0)
  let x1' := pyInt (min ((x1 : ℚ) + margin_width) (imgWidth : ℚ))
  let y1' := pyInt (min ((y1 : ℚ) + margin_height) (imgHeight : ℚ))
  (x0', y0', x1', y1')

/-- `crop(image, bb, margin)` from `utils.py`, restricted to the returned box
(the first component of the Python result is the pure slice
`image[y0:y1, x0:x1, :]` of the input, which carries no further logic):
raises `ValueError` when `margin < 0` or `margin > 1`, otherwise computes the
margin-expanded, clamped box `cropBox`. -/
def crop (imgHeight imgWidth : ℤ) (bb : ℤ × ℤ × ℤ × ℤ) (margin : ℚ) :
    Except String (ℤ × ℤ × ℤ × ℤ) :=
  if margin < 0 then
    Except.error "the margin must be a value between 0 and 1"
  else if margin > 1 then
    Except.error
      "the margin must be a value between 0 and 1 - this is a change from the existing API"
  else
    Except.ok (cropBox imgHeight imgWidth bb margin)

/-- The no-landmark path of `preprocess(image, desired_height, desired_width,
margin, bbox=None, landmark=None)` from `utils.py`: when no landmark is given
(`M is None`), and no bounding box is given, it builds
`bbox[0] = int(image_height * 0.0625)`, `bbox[1] = int(image_width * 0.0625)`,
`bbox[2] = image.shape[1] - bbox[0]`, `bbox[3] = image.shape[0] - bbox[1]`
(note: the source uses the image HEIGHT for the x-inset `bbox[0]` and the
image WIDTH for the y-inset `bbox[1]`), then delegates box and margin to
`crop`. `desired_height` / `desired_width` only affect the landmark path and
are omitted here. -/
def preprocessNoLandmark (imageHeight imageWidth : ℤ) (margin : ℚ)
    (bbox : Option (ℤ × ℤ × ℤ × ℤ)) : Except String (ℤ × ℤ × ℤ × ℤ) :=
  let bb :=
    match bbox with
    | some b => b
    | none =>
      let b0 := pyInt ((imageHeight : ℚ) * (625 / 10000))
      let b1 := pyInt ((imageWidth : ℚ) * (625 / 10000))
      (b0, b1, imageWidth - b0, imageHeight - b1)
  crop imageHeight imageWidth bb margin

/-- A numpy array of 1, 2 or 3 dimensions with integer entries, as handled by
`fix_image` (grayscale images are integer-valued `uint8` arrays). -/
inductive NDArray where
  | d1 (data : List ℤ)
  | d2 (data : List (List ℤ))
  | d3 (data : List (List (List ℤ)))
deriving DecidableEq, Repr

/-- The shape of an `NDArray` (rectangular by convention, as numpy arrays
are; the length of the first row determines the trailing dimensions). -/
def ndShape : NDArray → List ℕ
  | .d1 l => [l.length]
  | .d2 l => [l.length, (l.head?.map List.length).getD 0]
  | .d3 l =>
    [l.length, (l.head?.map List.length).getD 0,
     ((l.head?.bind List.head?).map List.length).getD 0]

/-- `add_color(image)` from `utils.py`: given a 2-D array, allocates a
3-channel `uint8` array of the same height and width and stores the input
into all three channels (`ret[:, :, 0] = ret[:, :, 1] = ret[:, :, 2] = image`);
the `uint8` store reduces each value modulo 256. -/
def add_color (image : List (List ℤ)) : List (List (List ℤ)) :=
  image.map (fun row => row.map (fun v => [v % 256, v % 256, v % 256]))

/-- `fix_image(image)` from `utils.py`. On an array of fewer than 2
dimensions the source evaluates `image[:, :, np.newaxis]`, which indexes a
1-D array with two slices and therefore raises
`IndexError: too many indices for array`; on a 2-D array it applies
`add_color`; finally it returns `image[:, :, 0:3]`, i.e. at most the first
3 entries of each innermost pixel vector. -/
def fix_image (image : NDArray) : Except String NDArray :=
  match image with
  | .d1 _ => Except.error "IndexError: too many indices for array"
  | .d2 data => Except.ok (.d3 ((add_color data).map (fun row => row.map (List.take 3))))
  | .d3 data => Except.ok (.d3 (data.map (fun row => row.map (List.take 3))))

/-- The distance-metric selector passed to `embedding_distance_bulk`.
Modelled from the spec: the `DistanceMetric` enumeration lives in
`facenet_sandberg.common_types`, which is not among the sources; the spec
describes it as "an enumerated choice between squared-Euclidean distance and
an angular (arccos-cosine) distance". The extra constructor `otherMetric`
stands for any selector value equal to neither named metric (the spec's
"any other metric value"), which a dynamically-typed caller can pass. -/
inductive DistanceMetric where
  | EUCLIDEAN_SQUARED
  | ANGULAR_DISTANCE
  | otherMetric
deriving DecidableEq, Repr

/-- `sklearn.metrics.pairwise.paired_distances(X, Y, metric='euclidean')`:
the row-aligned Euclidean distances `‖X_i - Y_i‖₂`. -/
noncomputable def pairedEuclidean (xs ys : List (List ℝ)) : List ℝ :=
  xs.zipWith (fun x y =>
    Real.sqrt (((x.zipWith (fun a b => a - b) y).map (fun d => d ^ 2)).sum)) ys

/-- `sklearn.metrics.pairwise.paired_distances(X, Y, metric='cosine')`:
the row-aligned cosine distances `1 - (X_i ⬝ Y_i) / (‖X_i‖ ‖Y_i‖)`. -/
noncomputable def pairedCosine (xs ys : List (List ℝ)) : List ℝ :=
  xs.zipWith (fun x y =>
    1 - ((x.zipWith (fun a b => a * b) y).sum /
      (Real.sqrt ((x.map (fun a => a ^ 2)).sum) *
       Real.sqrt ((y.map (fun a => a ^ 2)).sum)))) ys

/-- `embedding_distance_bulk(embeddings1, embeddings2, distance_metric)` from
`utils.py`: squared paired Euclidean distances for `EUCLIDEAN_SQUARED`,
`arccos(1 - cosine_distance) / pi` for `ANGULAR_DISTANCE`, and for any other
selector the `if/elif` chain falls through and the function returns `None`
(modelled as `none`). -/
noncomputable def embedding_distance_bulk (embeddings1 embeddings2 : List (List ℝ))
    (distance_metric : DistanceMetric) : Option (List ℝ) :=
  match distance_metric with
  | .EUCLIDEAN_SQUARED =>
    some ((pairedEuclidean embeddings1 embeddings2).map (fun d => d ^ 2))
  | .ANGULAR_DISTANCE =>
    some ((pairedCosine embeddings1 embeddings2).map
      (fun d => Real.arccos (1 - d) / Real.pi))
  | .otherMetric => none

/-- `embedding_distance(embedding_1, embedding_2, distance_metric)` from
`utils.py`: reshapes each embedding into a single-row matrix, delegates to
`embedding_distance_bulk` and takes element `[0]` of the result (on the
fall-through `None` result that subscript would raise, modelled by `none`). -/
noncomputable def embedding_distance (embedding_1 embedding_2 : List ℝ)
    (distance_metric : DistanceMetric) : Option ℝ :=
  (embedding_distance_bulk [embedding_1] [embedding_2] distance_metric).bind
    List.head?

/-- `np.mean(image)` for a flattened image. -/
noncomputable def image_mean (image : List ℝ) : ℝ :=
  image.sum / image.length

/-- `np.std(image)` for a flattened image (population standard deviation,
`ddof = 0`). -/
noncomputable def image_std (image : List ℝ) : ℝ :=
  Real.sqrt ((image.map (fun x => (x - image_mean image) ^ 2)).sum / image.length)

/-- `std_adj = np.maximum(std, 1.0 / np.sqrt(image.size))` from
`normalize_image`. -/
noncomputable def image_std_adj (image : List ℝ) : ℝ :=
  max (image_std image) (1 / Real.sqrt image.length)

/-- `normalize_image(image)` from `utils.py`, on the flattened pixel list:
`y = (image - mean) * (1 / std_adj)` elementwise, where
`std_adj = max(std, 1 / sqrt(image.size))`. -/
noncomputable def normalize_image (image : List ℝ) : List ℝ :=
  image.map (fun x => (x - image_mean image) * (1 / image_std_adj image))

/-! ### Helper lemmas -/

lemma pyInt_of_nonneg {q : ℚ} (h : 0 ≤ q) : pyInt q = ⌊q⌋ := if_pos h

lemma pyInt_intCast (n : ℤ) : pyInt (n : ℚ) = n := by
  unfold pyInt
  split <;> simp

/-- One axis of the `cropBox` computation: expanding `[lo, hi]` by a
nonnegative margin and clamping into `[0, bound]` keeps the low edge in
`[0, lo]` and the high edge in `[hi, bound]`. -/
lemma cropBox_axis (lo hi bound : ℤ) (mw : ℚ) (hmw : 0 ≤ mw)
    (h0 : 0 ≤ lo) (hlh : lo ≤ hi) (hhb : hi ≤ bound) :
    0 ≤ pyInt (max ((lo : ℚ) - mw) 0) ∧
    pyInt (max ((lo : ℚ) - mw) 0) ≤ lo ∧
    hi ≤ pyInt (min ((hi : ℚ) + mw) (bound : ℚ)) ∧
    pyInt (min ((hi : ℚ) + mw) (bound : ℚ)) ≤ bound := by
  have hmax : (0 : ℚ) ≤ max ((lo : ℚ) - mw) 0 := le_max_right _ _
  have hhi0 : (0 : ℚ) ≤ (hi : ℚ) := by exact_mod_cast h0.trans hlh
  have hminn : (0 : ℚ) ≤ min ((hi : ℚ) + mw) (bound : ℚ) := by
    refine le_min (by linarith) ?_
    exact_mod_cast (h0.trans hlh).trans hhb
  rw [pyInt_of_nonneg hmax, pyInt_of_nonneg hminn]
  refine ⟨Int.le_floor.mpr (by exact_mod_cast hmax), ?_, ?_, ?_⟩
  · have hle : max ((lo : ℚ) - mw) 0 ≤ (lo : ℚ) :=
      max_le (by linarith) (by exact_mod_cast h0)
    calc ⌊max ((lo : ℚ) - mw) 0⌋ ≤ ⌊(lo : ℚ)⌋ := Int.floor_le_floor hle
      _ = lo := Int.floor_intCast lo
  · refine Int.le_floor.mpr (le_min (by linarith) ?_)
    exact_mod_cast hhb
  · calc ⌊min ((hi : ℚ) + mw) (bound : ℚ)⌋ ≤ ⌊(bound : ℚ)⌋ :=
        Int.floor_le_floor (min_le_right _ _)
      _ = bound := Int.floor_intCast bound

/-! ### Claims -/

/-- C1: for every image and every margin strictly below 0 or strictly above 1,
`crop` raises a `ValueError`, and for every margin in `[0, 1]` it raises no
margin error: the result is an error exactly when the margin is outside
`[0, 1]`. -/
theorem crop_margin_error_iff (imgHeight imgWidth : ℤ) (bb : ℤ × ℤ × ℤ × ℤ)
    (margin : ℚ) :
    (∃ msg, crop imgHeight imgWidth bb margin = Except.error msg) ↔
      (margin < 0 ∨ 1 < margin) := by
  unfold crop
  split
  · exact ⟨fun _ => Or.inl ‹_›, fun _ => ⟨_, rfl⟩⟩
  · split
    · exact ⟨fun _ => Or.inr ‹_›, fun _ => ⟨_, rfl⟩⟩
    · constructor
      · rintro ⟨msg, h⟩
        exact absurd h (by simp)
      · rintro (h | h) <;> [exact absurd h ‹¬margin < 0›; exact absurd h ‹¬margin > 1›]

/-- C4: for every distance-metric selector other than `EUCLIDEAN_SQUARED`
and `ANGULAR_DISTANCE`, `embedding_distance_bulk` falls through its `if/elif`
chain and returns no result (`none`) rather than raising an
unsupported-metric error. -/
theorem embedding_distance_bulk_fallthrough (embeddings1 embeddings2 : List (List ℝ))
    (m : DistanceMetric) (h1 : m ≠ DistanceMetric.EUCLIDEAN_SQUARED)
    (h2 : m ≠ DistanceMetric.ANGULAR_DISTANCE) :
    embedding_distance_bulk embeddings1 embeddings2 m = none := by
  cases m <;> simp_all [embedding_distance_bulk]

/-- Witness for C4: the fall-through at a concrete unmatched selector. -/
theorem embedding_distance_bulk_fallthrough_witness :
    embedding_distance_bulk [[1, 0]] [[0, 1]] DistanceMetric.otherMetric = none :=
  embedding_distance_bulk_fallthrough [[1, 0]] [[0, 1]] DistanceMetric.otherMetric
    (by decide) (by decide)

/-- Counterexample to C6 as stated: the claim quantifies over ALL integers
`max_x`, `max_y`, but with `max_x = max_y = -1` the returned coordinate `0`
does not lie within the (empty) interval `[0, -1]`. -/
theorem fix_mtcnn_bb_range_counterexample :
    fix_mtcnn_bb (-1) (-1) 0 0 0 0 = [0, 0, 0, 0] ∧ ¬((0 : ℤ) ≤ -1) := by
  decide

/-- C6 (amended): for all `max_x ≥ 0` and `max_y ≥ 0` and all integer
`x1, y1, dx, dy` (including negative or oversized deltas), every coordinate
of `fix_mtcnn_bb max_y max_x x1 y1 dx dy` lies within `[0, max_x]` for the
x-coordinates (positions 0 and 2) and within `[0, max_y]` for the
y-coordinates (positions 1 and 3). -/
theorem fix_mtcnn_bb_range (max_y max_x x1 y1 dx dy : ℤ)
    (hx : 0 ≤ max_x) (hy : 0 ≤ max_y) :
    0 ≤ (fix_mtcnn_bb max_y max_x x1 y1 dx dy)[0]! ∧
      (fix_mtcnn_bb max_y max_x x1 y1 dx dy)[0]! ≤ max_x ∧
    0 ≤ (fix_mtcnn_bb max_y max_x x1 y1 dx dy)[1]! ∧
      (fix_mtcnn_bb max_y max_x x1 y1 dx dy)[1]! ≤ max_y ∧
    0 ≤ (fix_mtcnn_bb max_y max_x x1 y1 dx dy)[2]! ∧
      (fix_mtcnn_bb max_y max_x x1 y1 dx dy)[2]! ≤ max_x ∧
    0 ≤ (fix_mtcnn_bb max_y max_x x1 y1 dx dy)[3]! ∧
      (fix_mtcnn_bb max_y max_x x1 y1 dx dy)[3]! ≤ max_y := by
  simp only [fix_mtcnn_bb]
  refine ⟨?_, ?_, ?_, ?_, ?_, ?_, ?_, ?_⟩ <;> simp <;> omega

/-- Witness for C6: concrete out-of-image inputs, clamped into range. -/
theorem fix_mtcnn_bb_range_witness :
    0 ≤ (fix_mtcnn_bb 5 5 (-3) 10 100 (-20))[0]! ∧
      (fix_mtcnn_bb 5 5 (-3) 10 100 (-20))[0]! ≤ 5 ∧
    0 ≤ (fix_mtcnn_bb 5 5 (-3) 10 100 (-20))[1]! ∧
      (fix_mtcnn_bb 5 5 (-3) 10 100 (-20))[1]! ≤ 5 ∧
    0 ≤ (fix_mtcnn_bb 5 5 (-3) 10 100 (-20))[2]! ∧
      (fix_mtcnn_bb 5 5 (-3) 10 100 (-20))[2]! ≤ 5 ∧
    0 ≤ (fix_mtcnn_bb 5 5 (-3) 10 100 (-20))[3]! ∧
      (fix_mtcnn_bb 5 5 (-3) 10 100 (-20))[3]! ≤ 5 :=
  fix_mtcnn_bb_range 5 5 (-3) 10 100 (-20) (by decide) (by decide)

/-- Counterexample to C7 as stated: with a negative width delta `dx = -3`
(and `dy = -3`), `fix_mtcnn_bb` returns a box whose clamped corners are out
of order: `x1' = 5 > 2 = x2'`. -/
theorem fix_mtcnn_bb_ordered_counterexample :
    fix_mtcnn_bb 10 10 5 5 (-3) (-3) = [5, 5, 2, 2] ∧ ¬((5 : ℤ) ≤ 2) := by
  decide

/-- C7 (amended): whenever the width and height deltas are nonnegative
(`dx ≥ 0`, `dy ≥ 0`), the box returned by `fix_mtcnn_bb` satisfies the
top-left/bottom-right order invariant `x1' ≤ x2'` and `y1' ≤ y2'`. -/
theorem fix_mtcnn_bb_ordered (max_y max_x x1 y1 dx dy : ℤ)
    (hdx : 0 ≤ dx) (hdy : 0 ≤ dy) :
    (fix_mtcnn_bb max_y max_x x1 y1 dx dy)[0]! ≤
      (fix_mtcnn_bb max_y max_x x1 y1 dx dy)[2]! ∧
    (fix_mtcnn_bb max_y max_x x1 y1 dx dy)[1]! ≤
      (fix_mtcnn_bb max_y max_x x1 y1 dx dy)[3]! := by
  simp only [fix_mtcnn_bb]
  constructor <;> simp <;> omega

/-- Witness for C7: a concrete box with nonnegative deltas stays ordered. -/
theorem fix_mtcnn_bb_ordered_witness :
    (fix_mtcnn_bb 10 10 5 5 3 4)[0]! ≤ (fix_mtcnn_bb 10 10 5 5 3 4)[2]! ∧
    (fix_mtcnn_bb 10 10 5 5 3 4)[1]! ≤ (fix_mtcnn_bb 10 10 5 5 3 4)[3]! :=
  fix_mtcnn_bb_ordered 10 10 5 5 3 4 (by decide) (by decide)

/-- C8: evaluation of the no-landmark, no-bbox path of `preprocess` at an
image of height 16 and width 32 with margin 0. The derived center-crop box is
`(1, 2, 31, 14)`: the x-coordinates are inset by `int(16 * 0.0625) = 1`,
i.e. by 6.25% of the HEIGHT, and the y-coordinates by `int(32 * 0.0625) = 2`,
i.e. by 6.25% of the WIDTH — the two axes are swapped relative to the
claimed (and upstream) behavior, which would give `(2, 1, 30, 15)`. -/
theorem preprocess_center_crop_swapped :
    preprocessNoLandmark 16 32 0 none = Except.ok (1, 2, 31, 14) ∧
      preprocessNoLandmark 16 32 0 none ≠ Except.ok (2, 1, 30, 15) := by
  constructor <;> norm_num [preprocessNoLandmark, crop, cropBox, pyInt]

/-- C2: for every image of height `H` and width `W`, every margin in
`[0, 1]`, and every bounding box `(x0, y0, x1, y1)` with
`0 ≤ x0 ≤ x1 ≤ W` and `0 ≤ y0 ≤ y1 ≤ H`, `crop` succeeds and the box it
returns satisfies `0 ≤ x0' ≤ x1' ≤ W` and `0 ≤ y0' ≤ y1' ≤ H`. -/
theorem crop_box_in_bounds (imgHeight imgWidth x0 y0 x1 y1 : ℤ) (margin : ℚ)
    (hm0 : 0 ≤ margin) (hm1 : margin ≤ 1)
    (hx0 : 0 ≤ x0) (hx01 : x0 ≤ x1) (hxW : x1 ≤ imgWidth)
    (hy0 : 0 ≤ y0) (hy01 : y0 ≤ y1) (hyH : y1 ≤ imgHeight) :
    crop imgHeight imgWidth (x0, y0, x1, y1) margin =
      Except.ok (cropBox imgHeight imgWidth (x0, y0, x1, y1) margin) ∧
    0 ≤ (cropBox imgHeight imgWidth (x0, y0, x1, y1) margin).1 ∧
    (cropBox imgHeight imgWidth (x0, y0, x1, y1) margin).1 ≤
      (cropBox imgHeight imgWidth (x0, y0, x1, y1) margin).2.2.1 ∧
    (cropBox imgHeight imgWidth (x0, y0, x1, y1) margin).2.2.1 ≤ imgWidth ∧
    0 ≤ (cropBox imgHeight imgWidth (x0, y0, x1, y1) margin).2.1 ∧
    (cropBox imgHeight imgWidth (x0, y0, x1, y1) margin).2.1 ≤
      (cropBox imgHeight imgWidth (x0, y0, x1, y1) margin).2.2.2 ∧
    (cropBox imgHeight imgWidth (x0, y0, x1, y1) margin).2.2.2 ≤ imgHeight := by
  have hmw : (0 : ℚ) ≤ ((x1 : ℚ) - (x0 : ℚ)) * margin / 2 := by
    have : (0 : ℚ) ≤ (x1 : ℚ) - (x0 : ℚ) := by
      linarith [(by exact_mod_cast hx01 : (x0 : ℚ) ≤ (x1 : ℚ))]
    positivity
  have hmh : (0 : ℚ) ≤ ((y1 : ℚ) - (y0 : ℚ)) * margin / 2 := by
    have : (0 : ℚ) ≤ (y1 : ℚ) - (y0 : ℚ) := by
      linarith [(by exact_mod_cast hy01 : (y0 : ℚ) ≤ (y1 : ℚ))]
    positivity
  have hx := cropBox_axis x0 x1 imgWidth (((x1 : ℚ) - (x0 : ℚ)) * margin / 2)
    hmw hx0 hx01 hxW
  have hy := cropBox_axis y0 y1 imgHeight (((y1 : ℚ) - (y0 : ℚ)) * margin / 2)
    hmh hy0 hy01 hyH
  refine ⟨by simp [crop, not_lt.mpr hm0, not_lt.mpr hm1], ?_⟩
  simp only [cropBox]
  exact ⟨hx.1, le_trans hx.2.1 (le_trans hx01 hx.2.2.1), hx.2.2.2,
    hy.1, le_trans hy.2.1 (le_trans hy01 hy.2.2.1), hy.2.2.2⟩

/-- Witness for C2: a concrete in-bounds box with margin `1/2` stays in
bounds. -/
theorem crop_box_in_bounds_witness :
    crop 10 10 (1, 1, 3, 5) (1 / 2) =
      Except.ok (cropBox 10 10 (1, 1, 3, 5) (1 / 2)) ∧
    0 ≤ (cropBox 10 10 (1, 1, 3, 5) (1 / 2)).1 ∧
    (cropBox 10 10 (1, 1, 3, 5) (1 / 2)).1 ≤
      (cropBox 10 10 (1, 1, 3, 5) (1 / 2)).2.2.1 ∧
    (cropBox 10 10 (1, 1, 3, 5) (1 / 2)).2.2.1 ≤ 10 ∧
    0 ≤ (cropBox 10 10 (1, 1, 3, 5) (1 / 2)).2.1 ∧
    (cropBox 10 10 (1, 1, 3, 5) (1 / 2)).2.1 ≤
      (cropBox 10 10 (1, 1, 3, 5) (1 / 2)).2.2.2 ∧
    (cropBox 10 10 (1, 1, 3, 5) (1 / 2)).2.2.2 ≤ 10 :=
  crop_box_in_bounds 10 10 1 1 3 5 (1 / 2) (by norm_num) (by norm_num)
    (by norm_num) (by norm_num) (by norm_num) (by norm_num) (by norm_num)
    (by norm_num)

/-- C10: for every image of height `H` and width `W` and every integer box
`(x0, y0, x1, y1)` with `0 ≤ x0 ≤ x1 ≤ W` and `0 ≤ y0 ≤ y1 ≤ H`,
`crop` with margin `0` returns the box unchanged. -/
theorem crop_zero_margin_id (imgHeight imgWidth x0 y0 x1 y1 : ℤ)
    (hx0 : 0 ≤ x0) (hx01 : x0 ≤ x1) (hxW : x1 ≤ imgWidth)
    (hy0 : 0 ≤ y0) (hy01 : y0 ≤ y1) (hyH : y1 ≤ imgHeight) :
    crop imgHeight imgWidth (x0, y0, x1, y1) 0 =
      Except.ok (x0, y0, x1, y1) := by
  have e : cropBox imgHeight imgWidth (x0, y0, x1, y1) 0 = (x0, y0, x1, y1) := by
    simp only [cropBox, mul_zero, zero_div, sub_zero, add_zero, zero_mul]
    rw [max_eq_left (by exact_mod_cast hx0 : (0 : ℚ) ≤ (x0 : ℚ)),
      max_eq_left (by exact_mod_cast hy0 : (0 : ℚ) ≤ (y0 : ℚ)),
      min_eq_left (by exact_mod_cast hxW : (x1 : ℚ) ≤ (imgWidth : ℚ)),
      min_eq_left (by exact_mod_cast hyH : (y1 : ℚ) ≤ (imgHeight : ℚ)),
      pyInt_intCast, pyInt_intCast, pyInt_intCast, pyInt_intCast]
  simp [crop, e]

/-- Witness for C10: a concrete box is returned unchanged at margin `0`. -/
theorem crop_zero_margin_id_witness :
    crop 10 10 (1, 2, 3, 4) 0 = Except.ok (1, 2, 3, 4) :=
  crop_zero_margin_id 10 10 1 2 3 4 (by norm_num) (by norm_num) (by norm_num)
    (by norm_num) (by norm_num) (by norm_num)

/-- C5: for every pair of equal-length vectors, `embedding_distance` with
`EUCLIDEAN_SQUARED` returns the sum over all indices of the squared
elementwise differences (the square of the paired Euclidean distance). -/
theorem embedding_distance_euclidean_squared (e1 e2 : List ℝ)
    (h : e1.length = e2.length) :
    embedding_distance e1 e2 DistanceMetric.EUCLIDEAN_SQUARED =
      some (((e1.zipWith (fun a b => a - b) e2).map (fun d => d ^ 2)).sum) := by
  have hnn : (0 : ℝ) ≤
      ((e1.zipWith (fun a b => a - b) e2).map (fun d => d ^ 2)).sum := by
    apply List.sum_nonneg
    intro x hx
    obtain ⟨d, _, rfl⟩ := List.mem_map.mp hx
    positivity
  simp [embedding_distance, embedding_distance_bulk, pairedEuclidean,
    Real.sq_sqrt hnn]

/-- Witness for C5: `e1 = [1, 0, 0]`, `e2 = [0, 1, 0]` gives distance `2`. -/
theorem embedding_distance_euclidean_squared_witness :
    embedding_distance [1, 0, 0] [0, 1, 0] DistanceMetric.EUCLIDEAN_SQUARED =
      some 2 := by
  have h := embedding_distance_euclidean_squared [1, 0, 0] [0, 1, 0] rfl
  norm_num [List.zipWith] at h
  exact h

/-- `np.mean` of a constant image is that constant. -/
lemma image_mean_replicate (n : ℕ) (c : ℝ) (hn : 0 < n) :
    image_mean (List.replicate n c) = c := by
  have hn' : (n : ℝ) ≠ 0 := Nat.cast_ne_zero.mpr hn.ne'
  simp only [image_mean, List.sum_replicate, nsmul_eq_mul, List.length_replicate]
  field_simp

/-- C9: `normalize_image` computes
`(image - mean(image)) * (1 / max(std(image), 1/sqrt(size)))` elementwise on
an output of the same shape, and on every nonempty constant-valued image it
returns the all-zero image of that shape, the adjusted standard deviation it
divides by being strictly positive (no division by zero). -/
theorem normalize_image_const (image : List ℝ) (i n : ℕ) (c : ℝ) (hn : 0 < n) :
    (normalize_image image).length = image.length ∧
    (normalize_image image)[i]? =
      image[i]?.map
        (fun x => (x - image_mean image) * (1 / image_std_adj image)) ∧
    normalize_image (List.replicate n c) = List.replicate n 0 ∧
    0 < image_std_adj (List.replicate n c) := by
  have hmean := image_mean_replicate n c hn
  refine ⟨by simp [normalize_image], by simp [normalize_image], ?_, ?_⟩
  · simp [normalize_image, hmean, List.map_replicate]
  · have h1 : (0 : ℝ) < 1 / Real.sqrt (List.replicate n c).length := by
      rw [List.length_replicate]
      have hs : (0 : ℝ) < Real.sqrt n := Real.sqrt_pos.mpr (by exact_mod_cast hn)
      positivity
    exact lt_of_lt_of_le h1 (le_max_right _ _)

/-- Witness for C9: the image `[1, 2, 5]` at index `1`, and the constant
image `[3, 3]` which normalizes to `[0, 0]`. -/
theorem normalize_image_const_witness :
    (normalize_image [1, 2, 5]).length = ([1, 2, 5] : List ℝ).length ∧
    (normalize_image [1, 2, 5])[1]? =
      ([1, 2, 5] : List ℝ)[1]?.map
        (fun x => (x - image_mean [1, 2, 5]) * (1 / image_std_adj [1, 2, 5])) ∧
    normalize_image (List.replicate 2 3) = List.replicate 2 0 ∧
    0 < image_std_adj (List.replicate 2 3) :=
  normalize_image_const [1, 2, 5] 1 2 3 (by norm_num)

/-- Counterexample to C3 as stated: on the 3-D single-channel input
`[[[7]]]` (shape `1 × 1 × 1`), `fix_image` returns an array that still has
only 1 channel, not 3: the final `image[:, :, 0:3]` slice never adds
channels. -/
theorem fix_image_channels_counterexample :
    (fix_image (NDArray.d3 [[[7]]])).map ndShape = Except.ok [1, 1, 1] ∧
      (fix_image (NDArray.d3 [[[7]]])).map ndShape ≠ Except.ok [1, 1, 3] := by
  constructor
  · rfl
  · rw [show (fix_image (NDArray.d3 [[[7]]])).map ndShape = Except.ok [1, 1, 1]
      from rfl]
    simp

/-- C3 (amended): `fix_image` raises an `IndexError` on inputs of fewer than
2 dimensions (the `image[:, :, np.newaxis]` indexing is invalid there); on a
2-D input of row length `w2` it returns a 3-D array of the same height and
width whose pixels are three equal channels (built by `add_color`); on a 3-D
input of row length `w3` and `c` channels it returns a 3-D array of the same
height and width whose pixels keep only the first `min 3 c` channels —
in particular a 3-D input with fewer than 3 channels does not gain any. -/
theorem fix_image_channels (l1 : List ℤ) (rows2 : List (List ℤ))
    (rows3 : List (List (List ℤ))) (w2 w3 c : ℕ)
    (h2 : ∀ r ∈ rows2, r.length = w2)
    (h3w : ∀ r ∈ rows3, r.length = w3)
    (h3c : ∀ r ∈ rows3, ∀ p ∈ r, p.length = c) :
    fix_image (NDArray.d1 l1) =
      Except.error "IndexError: too many indices for array" ∧
    (∃ out, fix_image (NDArray.d2 rows2) = Except.ok (NDArray.d3 out) ∧
      out.length = rows2.length ∧ (∀ row ∈ out, row.length = w2) ∧
      ∀ row ∈ out, ∀ p ∈ row, ∃ v, p = [v, v, v]) ∧
    (∃ out, fix_image (NDArray.d3 rows3) = Except.ok (NDArray.d3 out) ∧
      out.length = rows3.length ∧ (∀ row ∈ out, row.length = w3) ∧
      ∀ row ∈ out, ∀ p ∈ row, p.length = min 3 c) := by
  refine ⟨rfl, ⟨_, rfl, ?_, ?_, ?_⟩, ⟨_, rfl, ?_, ?_, ?_⟩⟩
  · simp [add_color]
  · intro row hrow
    simp only [add_color, List.map_map, List.mem_map] at hrow
    obtain ⟨r, hr, rfl⟩ := hrow
    simp [h2 r hr]
  · intro row hrow p hp
    simp only [add_color, List.map_map, List.mem_map] at hrow
    obtain ⟨r, hr, rfl⟩ := hrow
    simp only [Function.comp, List.map_map, List.mem_map] at hp
    obtain ⟨v, hv, rfl⟩ := hp
    exact ⟨v % 256, rfl⟩
  · simp
  · intro row hrow
    simp only [List.mem_map] at hrow
    obtain ⟨r, hr, rfl⟩ := hrow
    simp [h3w r hr]
  · intro row hrow p hp
    simp only [List.mem_map] at hrow
    obtain ⟨r, hr, rfl⟩ := hrow
    simp only [List.mem_map] at hp
    obtain ⟨p0, hp0, rfl⟩ := hp
    simp [List.length_take, h3c r hr p0 hp0]

/-- Witness for C3: a concrete 1-D, 2-D and 3-D input each behave as the
amended claim states. -/
theorem fix_image_channels_witness :
    fix_image (NDArray.d1 [5]) =
      Except.error "IndexError: too many indices for array" ∧
    (∃ out, fix_image (NDArray.d2 [[300, 7]]) = Except.ok (NDArray.d3 out) ∧
      out.length = ([[300, 7]] : List (List ℤ)).length ∧
      (∀ row ∈ out, row.length = 2) ∧
      ∀ row ∈ out, ∀ p ∈ row, ∃ v, p = [v, v, v]) ∧
    (∃ out, fix_image (NDArray.d3 [[[1, 2, 3, 4], [5, 6, 7, 8]]]) =
        Except.ok (NDArray.d3 out) ∧
      out.length = ([[[1, 2, 3, 4], [5, 6, 7, 8]]] : List (List (List ℤ))).length ∧
      (∀ row ∈ out, row.length = 2) ∧
      ∀ row ∈ out, ∀ p ∈ row, p.length = min 3 4) :=
  fix_image_channels [5] [[300, 7]] [[[1, 2, 3, 4], [5, 6, 7, 8]]] 2 2 4
    (by decide) (by decide) (by decide)

end FacenetUtils
